import Mathlib

/-!
Shallow embedding of the EcomShop storefront's cart, wishlist, catalog and
order-placement logic, together with the database constraints from the
migration `20250904111001_square_thunder.sql`.

Conventions of the embedding:
* monetary amounts and quantities are `Int` (the code works with JS numbers;
  no claim here depends on fractional cents, and all algebra is exact);
* identifiers (uuids in the store) are `String`;
* a thrown JS exception is an `Except.error`; since thrown errors do not roll
  back already-committed store writes, every operation returns the resulting
  store state *alongside* the outcome: `DB × Except AppError α`;
* the store (Supabase/Postgres) enforces the migration's CHECK and UNIQUE
  constraints on insert; a rejected insert surfaces as an error result and
  leaves the state unchanged;
* row ordering of query results (`order by created_at`) is not modelled; all
  catalog claims below are membership/filter claims.
-/

/-- Error values observable from the embedded operations.
`conflict` models the store rejecting an insert that violates a UNIQUE
constraint; `checkViolation` models the store rejecting a write that violates
a CHECK constraint (both from the migration); `netFailure` models an
underlying data-store/network failure; `typeError` models the JS `TypeError`
raised when the code dereferences a field of an `undefined` joined record.
`validation` and `emptyCart` are the specification's taxonomy names
(`ValidationError`, `EmptyCartError`), included so that claims phrased in
terms of them can be stated; no code path of the repository constructs them. -/
inductive AppError where
  | validation
  | emptyCart
  | conflict
  | checkViolation
  | netFailure
  | typeError
deriving DecidableEq, Repr

/-- `products` row (src/types, migration lines 75-85). -/
structure Product where
  id : String
  name : String
  description : String
  price : Int
  category_id : String
  stock_quantity : Int
  is_active : Bool
deriving DecidableEq, Repr

/-- `cart_items` row (migration lines 96-103): quantity CHECK `> 0`,
UNIQUE (user_id, product_id) — the checks are enforced by `insert`/`update`
below, not baked into the type. -/
structure CartRow where
  id : String
  user_id : String
  product_id : String
  quantity : Int
deriving DecidableEq, Repr

/-- A client-side cart item: a `cart_items` row together with its joined
`products` record, which the join leaves absent (`undefined` in TS) when no
matching product row exists. -/
structure CartItem where
  id : String
  user_id : String
  product_id : String
  quantity : Int
  products : Option Product
deriving DecidableEq, Repr

/-- `wishlist_items` row (migration lines 106-112): UNIQUE (user_id, product_id). -/
structure WishRow where
  id : String
  user_id : String
  product_id : String
deriving DecidableEq, Repr

/-- Shipping address collected by the checkout form (src/types). -/
structure ShippingAddress where
  full_name : String
  phone : String
  street : String
  city : String
  state : String
  postal_code : String
  country : String
deriving DecidableEq, Repr

/-- `orders` row (migration lines 115-123): total_amount CHECK `> 0`. -/
structure OrderRow where
  id : String
  user_id : String
  total_amount : Int
  status : String
  shipping_address : ShippingAddress
deriving DecidableEq, Repr

/-- `order_items` row (migration lines 126-133): quantity CHECK `> 0`,
price CHECK `> 0`. -/
structure OrderItemRow where
  order_id : String
  product_id : String
  quantity : Int
  price : Int
deriving DecidableEq, Repr

/-- The relational store: one list per collection the embedded code touches. -/
structure DB where
  products : List Product
  cart_items : List CartRow
  wishlist_items : List WishRow
  orders : List OrderRow
  order_items : List OrderItemRow
deriving DecidableEq, Repr

/-! ### Cart manager (src/contexts/CartContext.tsx) -/

/-- The `products` join used by `loadCartItems`: first products row whose id
matches, if any. -/
def findProduct (ps : List Product) (pid : String) : Option Product :=
  ps.find? (fun p => p.id == pid)

/-- `loadCartItems` (CartContext.tsx lines 45-69): select the user's
`cart_items` rows with their joined `products` record. -/
def loadCartItems (s : DB) (userId : String) : List CartItem :=
  (s.cart_items.filter (fun r => r.user_id == userId)).map (fun r =>
    { id := r.id, user_id := r.user_id, product_id := r.product_id,
      quantity := r.quantity, products := findProduct s.products r.product_id })

/-- `removeFromCart` (CartContext.tsx lines 120-132): delete the `cart_items`
row(s) with the given id. -/
def removeFromCart (itemId : String) (s : DB) : DB × Except AppError Unit :=
  ({ s with cart_items := s.cart_items.filter (fun r => r.id != itemId) }, .ok ())

/-- `updateCartItem` (CartContext.tsx lines 101-118): a non-positive quantity
delegates to `removeFromCart`; otherwise the row with the given id is updated
to the new quantity (the store's `quantity > 0` CHECK is satisfied here since
`0 < qty`). -/
def updateCartItem (itemId : String) (qty : Int) (s : DB) : DB × Except AppError Unit :=
  if qty ≤ 0 then
    removeFromCart itemId s
  else
    ({ s with cart_items := s.cart_items.map (fun r =>
        if r.id == itemId then { r with quantity := qty } else r) }, .ok ())

/-- `addToCart` (CartContext.tsx lines 71-99): look the product up in the
loaded cart; an existing line is bumped through `updateCartItem`, otherwise a
new row is inserted, subject to the store's `quantity > 0` CHECK and the
UNIQUE (user_id, product_id) constraint. `newId` stands for the uuid the
store generates for the inserted row. -/
def addToCart (userId productId : String) (qty : Int) (newId : String) (s : DB) :
    DB × Except AppError Unit :=
  match (loadCartItems s userId).find? (fun item => item.product_id == productId) with
  | some existingItem => updateCartItem existingItem.id (existingItem.quantity + qty) s
  | none =>
      if qty ≤ 0 then (s, .error .checkViolation)
      else if s.cart_items.any (fun r => r.user_id == userId && r.product_id == productId) then
        (s, .error .conflict)
      else
        ({ s with cart_items :=
            s.cart_items ++ [⟨newId, userId, productId, qty⟩] }, .ok ())

/-- JS `a || b` on a possibly-absent number: `undefined` and `0` are falsy. -/
def jsOr (a : Option Int) (b : Int) : Int :=
  match a with
  | none => b
  | some v => if v = 0 then b else v

/-- `totalItems` (CartContext.tsx line 150). -/
def totalItems (items : List CartItem) : Int :=
  items.foldl (fun sum item => sum + item.quantity) 0

/-- `totalAmount` (CartContext.tsx lines 151-154): `item.products?.price || 0`
times quantity, summed. -/
def totalAmount (items : List CartItem) : Int :=
  items.foldl (fun sum item =>
    sum + jsOr (item.products.map Product.price) 0 * item.quantity) 0

/-! ### Wishlist manager (WishlistService) -/

/-- `WishlistService.addToWishlist` (part_002 lines 131-145): a bare insert;
the store rejects a duplicate (user_id, product_id) per the migration's
UNIQUE constraint, and the service re-throws that error. -/
def addToWishlist (userId productId newId : String) (s : DB) :
    DB × Except AppError Unit :=
  if s.wishlist_items.any (fun r => r.user_id == userId && r.product_id == productId) then
    (s, .error .conflict)
  else
    ({ s with wishlist_items := s.wishlist_items ++ [⟨newId, userId, productId⟩] }, .ok ())

/-- Number of wishlist rows for a (user, product) pair. -/
def wishCount (userId productId : String) (s : DB) : Nat :=
  s.wishlist_items.countP (fun r => r.user_id == userId && r.product_id == productId)

/-! ### Order workflow (OrderService.createOrder, part_002 lines 178-234) -/

/-- The `cartItems.reduce` at part_002 lines 183-185: each step reads
`item.products.price`; an absent joined product makes the JS code throw a
`TypeError` at that step, modelled by the accumulator collapsing to `none`. -/
def computeTotal (cartItems : List CartItem) : Option Int :=
  cartItems.foldl (fun acc item =>
    match acc, item.products with
    | some sum, some p => some (sum + p.price * item.quantity)
    | _, _ => none) (some 0)

/-- The `cartItems.map` at part_002 lines 207-212: one order-item row per cart
line, `price` read from `item.products.price` (again a `TypeError`, i.e.
`none`, on an absent product). -/
def snapshotItems (oid : String) (cartItems : List CartItem) : Option (List OrderItemRow) :=
  cartItems.mapM (fun item =>
    item.products.map (fun p =>
      ({ order_id := oid, product_id := item.product_id,
         quantity := item.quantity, price := p.price } : OrderItemRow)))

/-- The migration's CHECK constraints on an `order_items` row. -/
def orderItemRowOk (it : OrderItemRow) : Bool :=
  decide (0 < it.quantity) && decide (0 < it.price)

/-- `OrderService.createOrder` (part_002 lines 178-234). Steps, in source
order: compute the total from the passed cart items; insert the `orders` row
(status `pending`), which the store rejects when the migration's
`total_amount > 0` CHECK fails; insert one `order_items` row per cart line
with the snapshotted price, rejected when a row fails its CHECKs (the already
inserted order is *not* rolled back); delete the user's `cart_items` rows —
a failure of this last delete (`clearFails`, an injected store failure) is
only logged, never thrown. `oid` stands for the uuid the store generates for
the `orders` row. -/
def createOrder (userId : String) (cartItems : List CartItem)
    (shippingAddress : ShippingAddress) (oid : String) (clearFails : Bool)
    (s : DB) : DB × Except AppError String :=
  match computeTotal cartItems with
  | none => (s, .error .typeError)
  | some totalAmount =>
    if 0 < totalAmount then
      let s1 := { s with orders :=
        s.orders ++ [⟨oid, userId, totalAmount, "pending", shippingAddress⟩] }
      match snapshotItems oid cartItems with
      | none => (s1, .error .typeError)
      | some orderItems =>
        if orderItems.all orderItemRowOk then
          let s2 := { s1 with order_items := s1.order_items ++ orderItems }
          if clearFails then
            (s2, .ok oid)
          else
            ({ s2 with cart_items :=
                s2.cart_items.filter (fun r => r.user_id != userId) }, .ok oid)
        else
          (s1, .error .checkViolation)
    else
      (s, .error .checkViolation)

/-- An administrative change of a product's price, acting on the `products`
collection only. -/
def updateProductPrice (pid : String) (newPrice : Int) (s : DB) : DB :=
  { s with products := s.products.map (fun p =>
      if p.id == pid then { p with price := newPrice } else p) }

/-- The price a cart line's joined product carries (0 when absent); on the
success path of `createOrder` every product is present, so this is exactly
the snapshotted price. -/
def lineSnapshotPrice (it : CartItem) : Int :=
  (it.products.map Product.price).getD 0

/-- The claim's total: Σ line.quantity * line.products.price over the cart as
passed to `createOrder`. -/
def snapTotal (cartItems : List CartItem) : Int :=
  (cartItems.map (fun it => it.quantity * lineSnapshotPrice it)).sum

/-- The claim's order lines: one per cart line, price copied from the joined
product at call time. -/
def snapLines (oid : String) (cartItems : List CartItem) : List OrderItemRow :=
  cartItems.map (fun it =>
    ⟨oid, it.product_id, it.quantity, lineSnapshotPrice it⟩)

/-! ### Catalog reader (ProductService, part_002 lines 19-102) -/

/-- Catalog query filters (src/types `FilterOptions`). -/
structure FilterOptions where
  category : Option String := none
  minPrice : Option Int := none
  maxPrice : Option Int := none
  search : Option String := none

/-- Case-insensitive substring test on `List Char`. -/
def containsSubList (hay needle : List Char) : Bool :=
  match hay with
  | [] => needle.isEmpty
  | _ :: t => needle.isPrefixOf hay || containsSubList t needle

/-- `ilike '%pat%'`: case-insensitive substring match (wildcard characters
inside `pat` are not modelled). -/
def ilike (hay pat : String) : Bool :=
  containsSubList hay.toLower.toList pat.toLower.toList

/-- `ProductService.getProducts` (part_002 lines 19-58): start from
`is_active = true`, then add each requested filter. `filters.category` and
`filters.search` are guarded by JS truthiness (an empty string is falsy and
skips the filter); `minPrice`/`maxPrice` are compared against `undefined`
only. Result ordering (`created_at desc`) is not modelled. -/
def getProducts (filters : FilterOptions) (db : List Product) : List Product :=
  let q0 := db.filter (fun p => p.is_active)
  let q1 := match filters.category with
    | some c => if c = "" then q0 else q0.filter (fun p => p.category_id == c)
    | none => q0
  let q2 := match filters.minPrice with
    | some m => q1.filter (fun p => decide (m ≤ p.price))
    | none => q1
  let q3 := match filters.maxPrice with
    | some m => q2.filter (fun p => decide (p.price ≤ m))
    | none => q2
  match filters.search with
  | some w => if w = "" then q3 else q3.filter (fun p => ilike p.name w || ilike p.description w)
  | none => q3

/-- `ProductService.getProductById` (part_002 lines 60-80): select by id with
`is_active = true`; `.single()` errors unless exactly one row matches, and an
error is returned to the caller as `null`. -/
def getProductById (id : String) (db : List Product) : Option Product :=
  match db.filter (fun p => p.id == id && p.is_active) with
  | [p] => some p
  | _ => none

/-- `ProductService.getFeaturedProducts` (part_002 lines 82-102): active
products, newest first (ordering not modelled), truncated to `limit`. -/
def getFeaturedProducts (limit : Nat) (db : List Product) : List Product :=
  (db.filter (fun p => p.is_active)).take limit

/-- The spec's description of `getProducts` filtering, as one pointwise
predicate: active, category equality when a category is given, price within
the given bounds, case-insensitive substring match on name or description
when a search term is given. -/
def matchesFilters (filters : FilterOptions) (p : Product) : Bool :=
  p.is_active
  && (match filters.category with | some c => p.category_id == c | none => true)
  && (match filters.minPrice with | some m => decide (m ≤ p.price) | none => true)
  && (match filters.maxPrice with | some m => decide (p.price ≤ m) | none => true)
  && (match filters.search with | some w => ilike p.name w || ilike p.description w | none => true)

/-- Cart rows of a given (user, product) pair, in store order. -/
def pairRows (userId productId : String) (s : DB) : List CartRow :=
  s.cart_items.filter (fun r => r.user_id == userId && r.product_id == productId)

/-! ### Helper lemmas -/

lemma jsOr_zero (o : Option Int) : jsOr o 0 = o.getD 0 := by
  cases o with
  | none => rfl
  | some v =>
      simp only [jsOr, Option.getD_some]
      split
      · omega
      · rfl

lemma foldl_add_eq_sum {α : Type} (f : α → Int) (l : List α) (a : Int) :
    l.foldl (fun s it => s + f it) a = a + (l.map f).sum := by
  induction l generalizing a with
  | nil => simp
  | cons h t ih =>
      rw [List.foldl_cons, ih, List.map_cons, List.sum_cons, add_assoc]

lemma find?_eq_head_filter {α : Type} (p : α → Bool) (l : List α) :
    l.find? p = (l.filter p).head? := by
  induction l with
  | nil => rfl
  | cons h t ih =>
      by_cases hp : p h
      · rw [List.find?_cons_of_pos _ hp, List.filter_cons_of_pos hp]
        rfl
      · simp only [Bool.not_eq_true] at hp
        rw [List.find?_cons_of_neg _ (by simp [hp]), List.filter_cons_of_neg (by simp [hp]), ih]

/-! ### C10: cart totals with a missing joined product -/

/-- C10: `totalAmount` values a cart line with an absent joined product at
price 0 (so it contributes nothing to the amount), while `totalItems` still
counts its full quantity. -/
theorem c10_totals_missing_product (items : List CartItem) :
    totalAmount items
      = (items.map (fun it => (it.products.map Product.price).getD 0 * it.quantity)).sum
    ∧ totalItems items = (items.map (fun it => it.quantity)).sum := by
  constructor
  · unfold totalAmount
    rw [foldl_add_eq_sum
      (fun it : CartItem => jsOr (it.products.map Product.price) 0 * it.quantity) items 0]
    simp [jsOr_zero]
  · unfold totalItems
    rw [foldl_add_eq_sum (fun it : CartItem => it.quantity) items 0]
    simp

/-! ### C5: updateQuantity semantics -/

/-- C5: `updateCartItem` with a non-positive quantity delegates to
`removeFromCart` (so the line is gone afterwards), and with a positive
quantity it sets the matching line's quantity and succeeds. -/
theorem c5_updateQuantity_spec (itemId : String) (qty : Int) (s : DB) :
    (qty ≤ 0 →
      updateCartItem itemId qty s = removeFromCart itemId s
      ∧ (updateCartItem itemId qty s).1.cart_items.all (fun r => r.id != itemId) = true)
    ∧ (0 < qty →
      (updateCartItem itemId qty s).2 = .ok ()
      ∧ (updateCartItem itemId qty s).1.cart_items
          = s.cart_items.map (fun r =>
              if r.id == itemId then { r with quantity := qty } else r)) := by
  constructor
  · intro h
    have he : updateCartItem itemId qty s = removeFromCart itemId s := by
      unfold updateCartItem
      simp [h]
    refine ⟨he, ?_⟩
    rw [he]
    unfold removeFromCart
    simp only [List.all_eq_true]
    intro r hr
    exact (List.mem_filter.mp hr).2
  · intro h
    unfold updateCartItem
    simp [not_le.mpr h]

/-! ### Concrete fixtures for witnesses and counterexamples -/

/-- A concrete active product. -/
def pA : Product := ⟨"p1", "Headphones", "wireless headphones", 19999, "cat1", 5, true⟩

/-- A second concrete active product. -/
def pB : Product := ⟨"p2", "T-Shirt", "soft cotton shirt", 2499, "cat2", 9, true⟩

/-- A concrete inactive product. -/
def pC : Product := ⟨"p3", "Old Lamp", "discontinued lamp", 999, "cat1", 0, false⟩

/-- A concrete shipping address. -/
def addrEx : ShippingAddress :=
  ⟨"Ada L", "555-0001", "1 Main St", "Springfield", "IL", "62701", "US"⟩

/-- A store holding the three products and nothing else. -/
def dbEx : DB := ⟨[pA, pB, pC], [], [], [], []⟩

/-- A store that additionally has one cart line (user `u`, product `p1`,
quantity 7). -/
def dbCart : DB := ⟨[pA, pB, pC], [⟨"c1", "u", "p1", 7⟩], [], [], []⟩

/-- C5 witness: `updateCartItem` at quantities 0 and -1 delegates to removal,
and at quantity 2 rewrites the concrete line. -/
theorem c5_updateQuantity_witness :
    updateCartItem "c1" 0 dbCart = removeFromCart "c1" dbCart
    ∧ updateCartItem "c1" (-1) dbCart = removeFromCart "c1" dbCart
    ∧ (updateCartItem "c1" 2 dbCart).1.cart_items = [⟨"c1", "u", "p1", 2⟩] :=
  ⟨((c5_updateQuantity_spec "c1" 0 dbCart).1 (by decide)).1,
   ((c5_updateQuantity_spec "c1" (-1) dbCart).1 (by decide)).1,
   by
     rw [((c5_updateQuantity_spec "c1" 2 dbCart).2 (by decide)).2]
     decide⟩

/-! ### C7: wishlist add is idempotent at the state level -/

lemma addToWishlist_state (u p nid : String) (s : DB) :
    (addToWishlist u p nid s).1 =
      if s.wishlist_items.any (fun r => r.user_id == u && r.product_id == p) then s
      else { s with wishlist_items := s.wishlist_items ++ [⟨nid, u, p⟩] } := by
  unfold addToWishlist
  split <;> rfl

/-- C7: adding the same (user, product) pair to the wishlist twice leaves
exactly one wishlist row for the pair — the store's UNIQUE constraint rejects
the duplicate insert — provided the pair was not already duplicated (which
the constraint guarantees for every reachable store). -/
theorem c7_addToWishlist_idempotent (u p id1 id2 : String) (s : DB)
    (h : wishCount u p s ≤ 1) :
    wishCount u p ((addToWishlist u p id2 (addToWishlist u p id1 s).1).1) = 1 := by
  by_cases hany : s.wishlist_items.any (fun r => r.user_id == u && r.product_id == p)
  · rw [addToWishlist_state u p id1 s, if_pos hany, addToWishlist_state u p id2 s,
      if_pos hany]
    have hpos : 0 < wishCount u p s := by
      unfold wishCount
      rw [List.countP_pos_iff]
      exact List.any_eq_true.mp hany
    omega
  · rw [addToWishlist_state u p id1 s, if_neg hany]
    have hmem : (s.wishlist_items ++ [(⟨id1, u, p⟩ : WishRow)]).any
        (fun r => r.user_id == u && r.product_id == p) = true := by
      simp [List.any_append]
    rw [addToWishlist_state u p id2 _, if_pos hmem]
    unfold wishCount
    have h0 : s.wishlist_items.countP (fun r => r.user_id == u && r.product_id == p) = 0 := by
      rw [List.countP_eq_zero]
      intro a ha hpa
      exact hany (List.any_eq_true.mpr ⟨a, ha, hpa⟩)
    simp [List.countP_append, h0, List.countP_cons]

/-- C7 witness: two concrete adds of the same pair, starting from an empty
wishlist, end with exactly one row. -/
theorem c7_addToWishlist_witness :
    wishCount "u" "p1" ((addToWishlist "u" "p1" "w2" (addToWishlist "u" "p1" "w1" dbEx).1).1) = 1 :=
  c7_addToWishlist_idempotent "u" "p1" "w1" "w2" dbEx (by decide)

/-! ### C2: createOrder on an empty cart -/

/-- C2 (amended): `createOrder` on an empty cart computes total 0, so the
orders insert is rejected by the store's `total_amount > 0` CHECK: the
failure is a store constraint violation (the code defines no
`EmptyCartError`), no order or order-line records are created, and the store
is returned unchanged. -/
theorem c2_createOrder_empty_cart (u : String) (addr : ShippingAddress)
    (oid : String) (clearFails : Bool) (s : DB) :
    createOrder u [] addr oid clearFails s = (s, .error .checkViolation) := by
  unfold createOrder computeTotal
  simp

/-- C2 counterexample: on a concrete empty cart the failure `createOrder`
reports is the store's CHECK-constraint violation, which is not an
`EmptyCartError`. -/
theorem c2_createOrder_empty_cart_cex :
    createOrder "u" [] addrEx "o1" false dbEx = (dbEx, .error .checkViolation)
    ∧ AppError.checkViolation ≠ AppError.emptyCart :=
  ⟨rfl, by decide⟩

/-! ### addToCart branch analysis (C4, C6) -/

lemma addToCart_lookup (u pid : String) (s : DB) :
    (loadCartItems s u).find? (fun item => item.product_id == pid)
      = (pairRows u pid s).head?.map (fun r =>
          ({ id := r.id, user_id := r.user_id, product_id := r.product_id,
             quantity := r.quantity,
             products := findProduct s.products r.product_id } : CartItem)) := by
  unfold loadCartItems pairRows
  rw [List.find?_map, List.find?_filter, find?_eq_head_filter]
  congr 2
  apply List.filter_congr
  intro x hx
  simp [Function.comp, Bool.beq_eq_decide_eq]

lemma addToCart_insert (u pid : String) (qty : Int) (nid : String) (s : DB)
    (hnone : pairRows u pid s = []) (hq : 0 < qty) :
    addToCart u pid qty nid s
      = ({ s with cart_items := s.cart_items ++ [⟨nid, u, pid, qty⟩] }, .ok ()) := by
  have hc : s.cart_items.any (fun r => r.user_id == u && r.product_id == pid) = false := by
    rw [List.any_eq_false]
    intro x hx hpx
    have hmem : x ∈ pairRows u pid s := List.mem_filter.mpr ⟨hx, hpx⟩
    rw [hnone] at hmem
    exact absurd hmem (List.not_mem_nil x)
  unfold addToCart
  rw [addToCart_lookup, hnone]
  simp [not_le.mpr hq, hc]

lemma addToCart_found (u pid : String) (qty : Int) (nid : String) (r : CartRow) (s : DB)
    (hone : (pairRows u pid s).head? = some r) :
    addToCart u pid qty nid s = updateCartItem r.id (r.quantity + qty) s := by
  unfold addToCart
  rw [addToCart_lookup, hone]
  rfl

lemma pairRows_update (u pid iid : String) (qty : Int) (s : DB) :
    pairRows u pid ({ s with cart_items := s.cart_items.map (fun r =>
        if r.id == iid then { r with quantity := qty } else r) } : DB)
      = (pairRows u pid s).map (fun r =>
          if r.id == iid then { r with quantity := qty } else r) := by
  unfold pairRows
  rw [List.filter_map]
  congr 1
  apply List.filter_congr
  intro x hx
  by_cases hid : x.id == iid <;> simp [Function.comp, hid]

lemma pairRows_updateCartItem (u pid iid : String) (qty : Int) (s : DB) (hq : 0 < qty) :
    pairRows u pid (updateCartItem iid qty s).1
      = (pairRows u pid s).map (fun r =>
          if r.id == iid then { r with quantity := qty } else r) := by
  unfold updateCartItem
  rw [if_neg (not_le.mpr hq)]
  exact pairRows_update u pid iid qty s

/-- C4: when the user already has a cart line for the product, `addToCart`
bumps that line's quantity by `qty` through the update path without inserting
a second line; when there is none, it inserts a fresh line with quantity
`qty`; in particular adding 2 and then 3 of the same product to a cart with
no line for it ends with exactly one line of quantity 5. -/
theorem c4_addToCart_unique (u pid : String) (qty : Int) (nid id1 id2 : String)
    (r : CartRow) (s : DB) (hq : 1 ≤ qty) :
    (pairRows u pid s = [] →
      addToCart u pid qty nid s
        = ({ s with cart_items := s.cart_items ++ [⟨nid, u, pid, qty⟩] }, .ok ()))
    ∧ (pairRows u pid s = [r] → 0 < r.quantity →
      addToCart u pid qty nid s = updateCartItem r.id (r.quantity + qty) s
      ∧ pairRows u pid (addToCart u pid qty nid s).1
          = [{ r with quantity := r.quantity + qty }]
      ∧ (addToCart u pid qty nid s).1.cart_items.length = s.cart_items.length)
    ∧ (pairRows u pid s = [] →
      pairRows u pid ((addToCart u pid 3 id2 ((addToCart u pid 2 id1 s).1)).1)
        = [⟨id1, u, pid, 5⟩]) := by
  refine ⟨?_, ?_, ?_⟩
  · intro hnone
    exact addToCart_insert u pid qty nid s hnone (by omega)
  · intro hone hrq
    have hdel := addToCart_found u pid qty nid r s (by rw [hone]; rfl)
    refine ⟨hdel, ?_, ?_⟩
    · rw [hdel, pairRows_updateCartItem u pid r.id (r.quantity + qty) s (by omega), hone]
      simp
    · rw [hdel]
      unfold updateCartItem
      rw [if_neg (by omega : ¬ r.quantity + qty ≤ 0)]
      simp
  · intro hnone
    have h1 := addToCart_insert u pid 2 id1 s hnone (by omega)
    rw [h1]
    have hpr1 : pairRows u pid
        ({ s with cart_items := s.cart_items ++ [⟨id1, u, pid, 2⟩] } : DB)
        = [⟨id1, u, pid, 2⟩] := by
      unfold pairRows at hnone ⊢
      rw [List.filter_append, hnone]
      simp
    have h2 := addToCart_found u pid 3 id2 (⟨id1, u, pid, 2⟩ : CartRow)
      ({ s with cart_items := s.cart_items ++ [⟨id1, u, pid, 2⟩] } : DB)
      (by rw [hpr1]; rfl)
    rw [h2]
    rw [pairRows_updateCartItem u pid (⟨id1, u, pid, 2⟩ : CartRow).id
      ((⟨id1, u, pid, 2⟩ : CartRow).quantity + 3)
      ({ s with cart_items := s.cart_items ++ [⟨id1, u, pid, 2⟩] } : DB)
      (show (0 : Int) < (2 : Int) + 3 by norm_num)]
    rw [hpr1]
    simp

/-- C4 witness: a fresh insert at quantity 2, an update of the concrete line
(7 becomes 11, same number of lines), and the 2-then-3 sequence ending with
one line of quantity 5. -/
theorem c4_addToCart_witness :
    addToCart "u" "p2" 2 "c9" dbEx
      = ({ dbEx with cart_items := dbEx.cart_items ++ [⟨"c9", "u", "p2", 2⟩] }, .ok ())
    ∧ (addToCart "u" "p1" 4 "c9" dbCart
        = updateCartItem "c1" ((7 : Int) + 4) dbCart
      ∧ pairRows "u" "p1" (addToCart "u" "p1" 4 "c9" dbCart).1 = [⟨"c1", "u", "p1", 11⟩]
      ∧ (addToCart "u" "p1" 4 "c9" dbCart).1.cart_items.length = dbCart.cart_items.length)
    ∧ pairRows "u" "p2" ((addToCart "u" "p2" 3 "cB" ((addToCart "u" "p2" 2 "cA" dbEx).1)).1)
      = [⟨"cA", "u", "p2", 5⟩] := by
  refine ⟨?_, ?_, ?_⟩
  · exact (c4_addToCart_unique "u" "p2" 2 "c9" "x" "y" ⟨"", "", "", 0⟩ dbEx
      (by decide)).1 (by decide)
  · exact (c4_addToCart_unique "u" "p1" 4 "c9" "x" "y" ⟨"c1", "u", "p1", 7⟩ dbCart
      (by decide)).2.1 (by decide) (by decide)
  · exact (c4_addToCart_unique "u" "p2" 2 "c9" "cA" "cB" ⟨"", "", "", 0⟩ dbEx
      (by decide)).2.2 (by decide)

/-! ### C6: addToCart with a non-positive quantity -/

/-- C6 (amended): `addToCart` performs no client-side quantity validation and
raises no `ValidationError`. With `qty < 1` and no existing line for the
pair, the insert is rejected by the store's `quantity > 0` CHECK — a store
constraint error — and no cart line is created; with an existing line the
call instead delegates to `updateCartItem` with the summed quantity,
mutating state (updating the line, or removing it when the sum is
non-positive) without any error. -/
theorem c6_addToCart_no_validation (u pid : String) (qty : Int) (nid : String)
    (r : CartRow) (s : DB) (hq : qty < 1) :
    (pairRows u pid s = [] →
      addToCart u pid qty nid s = (s, .error .checkViolation))
    ∧ (pairRows u pid s = [r] →
      addToCart u pid qty nid s = updateCartItem r.id (r.quantity + qty) s) := by
  constructor
  · intro hnone
    unfold addToCart
    rw [addToCart_lookup, hnone]
    simp [show qty ≤ 0 by omega]
  · intro hone
    exact addToCart_found u pid qty nid r s (by rw [hone]; rfl)

/-- C6 counterexample: `addToCart` at quantity −1 on an existing line of
quantity 7 raises no error at all — it succeeds and rewrites the line to
quantity 6, so state *is* mutated and no `ValidationError` occurs. -/
theorem c6_addToCart_no_validation_cex :
    (addToCart "u" "p1" (-1) "c9" dbCart).2 = .ok ()
    ∧ (addToCart "u" "p1" (-1) "c9" dbCart).1.cart_items = [⟨"c1", "u", "p1", 6⟩] := by
  constructor
  · rfl
  · rfl

/-- C6 witness: the fresh-insert branch at quantity 0 is rejected by the
store CHECK leaving the state unchanged, and the existing-line branch at
quantity −1 delegates to the update path. -/
theorem c6_addToCart_no_validation_witness :
    addToCart "u" "p2" 0 "c9" dbEx = (dbEx, .error .checkViolation)
    ∧ addToCart "u" "p1" (-1) "c9" dbCart = updateCartItem "c1" ((7 : Int) + (-1)) dbCart :=
  ⟨(c6_addToCart_no_validation "u" "p2" 0 "c9" ⟨"", "", "", 0⟩ dbEx (by decide)).1
     (by decide),
   (c6_addToCart_no_validation "u" "p1" (-1) "c9" ⟨"c1", "u", "p1", 7⟩ dbCart
     (by decide)).2 (by decide)⟩

/-! ### createOrder: total computation and snapshot lemmas (C1, C3, C9) -/

lemma computeTotal_go_none (l : List CartItem) :
    l.foldl (fun acc item =>
      match acc, item.products with
      | some sum, some p => some (sum + p.price * item.quantity)
      | _, _ => none) none = none := by
  induction l with
  | nil => rfl
  | cons hd t ih =>
      rw [List.foldl_cons]
      cases hd.products <;> exact ih

lemma computeTotal_go_some (l : List CartItem) :
    ∀ a : Int, (∀ it ∈ l, it.products.isSome = true) →
      l.foldl (fun acc item =>
        match acc, item.products with
        | some sum, some p => some (sum + p.price * item.quantity)
        | _, _ => none) (some a)
      = some (a + (l.map (fun it => lineSnapshotPrice it * it.quantity)).sum) := by
  induction l with
  | nil => intro a _; simp
  | cons hd t ih =>
      intro a hall
      obtain ⟨p, hp⟩ := Option.isSome_iff_exists.mp (hall hd (List.mem_cons_self hd t))
      rw [List.foldl_cons]
      simp only [hp]
      rw [ih (a + p.price * hd.quantity) (fun it hit => hall it (List.mem_cons_of_mem hd hit))]
      simp [lineSnapshotPrice, hp, add_assoc]

lemma snapTotal_eq (l : List CartItem) :
    snapTotal l = (l.map (fun it => lineSnapshotPrice it * it.quantity)).sum := by
  unfold snapTotal
  exact congrArg List.sum (List.map_congr_left (fun it _ => mul_comm _ _))

lemma computeTotal_some (l : List CartItem)
    (hall : ∀ it ∈ l, it.products.isSome = true) :
    computeTotal l = some (snapTotal l) := by
  unfold computeTotal
  rw [computeTotal_go_some l 0 hall, snapTotal_eq, zero_add]

lemma computeTotal_none (l : List CartItem) (h : ∃ it ∈ l, it.products = none) :
    computeTotal l = none := by
  unfold computeTotal
  suffices hgen : ∀ a : Int, l.foldl (fun acc item =>
      match acc, item.products with
      | some sum, some p => some (sum + p.price * item.quantity)
      | _, _ => none) (some a) = none from hgen 0
  induction l with
  | nil =>
      obtain ⟨it, hit, _⟩ := h
      exact absurd hit (List.not_mem_nil it)
  | cons hd t ih =>
      intro a
      rw [List.foldl_cons]
      cases hhd : hd.products with
      | none => exact computeTotal_go_none t
      | some p =>
          obtain ⟨it, hit, hnone⟩ := h
          rcases List.mem_cons.mp hit with rfl | hmem
          · rw [hhd] at hnone
            exact absurd hnone (by simp)
          · exact ih ⟨it, hmem, hnone⟩ _

lemma snapshotItems_some (oid : String) (l : List CartItem)
    (hall : ∀ it ∈ l, it.products.isSome = true) :
    snapshotItems oid l = some (snapLines oid l) := by
  induction l with
  | nil => rfl
  | cons hd t ih =>
      obtain ⟨p, hp⟩ := Option.isSome_iff_exists.mp (hall hd (List.mem_cons_self hd t))
      unfold snapshotItems at ih ⊢
      rw [List.mapM_cons, ih (fun it hit => hall it (List.mem_cons_of_mem hd hit))]
      simp [hp, snapLines, lineSnapshotPrice]

lemma createOrder_success (u : String) (l : List CartItem) (addr : ShippingAddress)
    (oid : String) (cf : Bool) (s : DB)
    (hne : l ≠ [])
    (hall : ∀ it ∈ l, it.products.isSome = true
      ∧ 0 < it.quantity ∧ 0 < lineSnapshotPrice it) :
    createOrder u l addr oid cf s =
      ({ s with
          orders := s.orders ++ [⟨oid, u, snapTotal l, "pending", addr⟩],
          order_items := s.order_items ++ snapLines oid l,
          cart_items := if cf then s.cart_items
            else s.cart_items.filter (fun r => r.user_id != u) }, .ok oid) := by
  have hsome : ∀ it ∈ l, it.products.isSome = true := fun it h => (hall it h).1
  have htot : computeTotal l = some (snapTotal l) := computeTotal_some l hsome
  have hpos : 0 < snapTotal l := by
    unfold snapTotal
    apply List.sum_pos
    · intro x hx
      obtain ⟨it, hit, rfl⟩ := List.mem_map.mp hx
      exact mul_pos (hall it hit).2.1 (hall it hit).2.2
    · rw [Ne, List.map_eq_nil_iff]
      exact hne
  have hsnap : snapshotItems oid l = some (snapLines oid l) := snapshotItems_some oid l hsome
  have hok : (snapLines oid l).all orderItemRowOk = true := by
    rw [List.all_eq_true]
    intro x hx
    obtain ⟨it, hit, rfl⟩ := List.mem_map.mp hx
    simp [orderItemRowOk, (hall it hit).2.1, (hall it hit).2.2]
  unfold createOrder
  rw [htot, hsnap]
  cases cf <;> simp [hpos, hok]

/-! ### C1: order total and price snapshot -/

/-- C1: for a non-empty cart whose lines all carry their joined product (with
the store invariants `quantity > 0`, `price > 0`), `createOrder` returns the
new order id, records `total_amount = Σ line.quantity * line.products.price`
as read at call time, appends exactly one order line per cart line with
`price` copied from that product, and a later product-price change does not
alter the stored order lines. -/
theorem c1_createOrder_snapshot (u : String) (l : List CartItem)
    (addr : ShippingAddress) (oid : String) (cf : Bool) (s : DB)
    (pid : String) (newPrice : Int)
    (hne : l ≠ [])
    (hall : ∀ it ∈ l, it.products.isSome = true
      ∧ 0 < it.quantity ∧ 0 < lineSnapshotPrice it) :
    (createOrder u l addr oid cf s).2 = .ok oid
    ∧ (createOrder u l addr oid cf s).1.orders
        = s.orders ++ [⟨oid, u, snapTotal l, "pending", addr⟩]
    ∧ (createOrder u l addr oid cf s).1.order_items
        = s.order_items ++ snapLines oid l
    ∧ (updateProductPrice pid newPrice (createOrder u l addr oid cf s).1).order_items
        = (createOrder u l addr oid cf s).1.order_items := by
  rw [createOrder_success u l addr oid cf s hne hall]
  exact ⟨rfl, rfl, rfl, rfl⟩

/-! ### C3: cart clearing and swallowed clear failure -/

/-- C3: once the order and its line items are inserted, `createOrder` deletes
all of the user's cart lines; when that delete fails the error is only
logged: the call still returns the order id and the inserted order and line
items are kept, with the cart untouched. -/
theorem c3_cart_clear_swallowed (u : String) (l : List CartItem)
    (addr : ShippingAddress) (oid : String) (s : DB)
    (hne : l ≠ [])
    (hall : ∀ it ∈ l, it.products.isSome = true
      ∧ 0 < it.quantity ∧ 0 < lineSnapshotPrice it) :
    (createOrder u l addr oid true s).2 = .ok oid
    ∧ (createOrder u l addr oid true s).1.orders
        = s.orders ++ [⟨oid, u, snapTotal l, "pending", addr⟩]
    ∧ (createOrder u l addr oid true s).1.order_items
        = s.order_items ++ snapLines oid l
    ∧ (createOrder u l addr oid true s).1.cart_items = s.cart_items
    ∧ (createOrder u l addr oid false s).1.cart_items
        = s.cart_items.filter (fun r => r.user_id != u)
    ∧ (createOrder u l addr oid false s).2 = .ok oid := by
  rw [createOrder_success u l addr oid true s hne hall,
    createOrder_success u l addr oid false s hne hall]
  exact ⟨rfl, rfl, rfl, by simp, by simp, rfl⟩

/-! ### C9: unguarded product dereference -/

/-- C9: `createOrder` reads `item.products.price` without any guard, so any
cart list containing a line whose joined product is absent makes the call
crash (`TypeError`, not a taxonomy error) before any record is written. -/
theorem c9_missing_product_crash (u : String) (l : List CartItem)
    (addr : ShippingAddress) (oid : String) (cf : Bool) (s : DB)
    (h : ∃ it ∈ l, it.products = none) :
    createOrder u l addr oid cf s = (s, .error .typeError) := by
  unfold createOrder
  rw [computeTotal_none l h]

/-- A concrete two-line cart carrying its joined products (quantities 1 and
2 of the two active products). -/
def cartEx : List CartItem :=
  [⟨"c1", "u", "p1", 1, some pA⟩, ⟨"c2", "u", "p2", 2, some pB⟩]

/-- A concrete one-line cart whose joined product is absent. -/
def cartBad : List CartItem := [⟨"c1", "u", "p1", 1, none⟩]

/-- C1 witness: the concrete two-line checkout returns the order id, records
the snapshot total and the two snapshotted order lines, and a subsequent
price change on `p1` leaves the stored order lines untouched. -/
theorem c1_createOrder_snapshot_witness :
    (createOrder "u" cartEx addrEx "o1" false dbCart).2 = .ok "o1"
    ∧ (createOrder "u" cartEx addrEx "o1" false dbCart).1.orders
        = dbCart.orders ++ [⟨"o1", "u", snapTotal cartEx, "pending", addrEx⟩]
    ∧ (createOrder "u" cartEx addrEx "o1" false dbCart).1.order_items
        = dbCart.order_items ++ snapLines "o1" cartEx
    ∧ (updateProductPrice "p1" 1 (createOrder "u" cartEx addrEx "o1" false dbCart).1).order_items
        = (createOrder "u" cartEx addrEx "o1" false dbCart).1.order_items :=
  c1_createOrder_snapshot "u" cartEx addrEx "o1" false dbCart "p1" 1
    (by decide) (by decide)

/-- C3 witness: the concrete checkout with an injected cart-clear failure
still returns the order id and keeps the order, its lines and the stale
cart; without the failure the user's cart lines are deleted. -/
theorem c3_cart_clear_swallowed_witness :
    (createOrder "u" cartEx addrEx "o1" true dbCart).2 = .ok "o1"
    ∧ (createOrder "u" cartEx addrEx "o1" true dbCart).1.orders
        = dbCart.orders ++ [⟨"o1", "u", snapTotal cartEx, "pending", addrEx⟩]
    ∧ (createOrder "u" cartEx addrEx "o1" true dbCart).1.order_items
        = dbCart.order_items ++ snapLines "o1" cartEx
    ∧ (createOrder "u" cartEx addrEx "o1" true dbCart).1.cart_items = dbCart.cart_items
    ∧ (createOrder "u" cartEx addrEx "o1" false dbCart).1.cart_items
        = dbCart.cart_items.filter (fun r => r.user_id != "u")
    ∧ (createOrder "u" cartEx addrEx "o1" false dbCart).2 = .ok "o1" :=
  c3_cart_clear_swallowed "u" cartEx addrEx "o1" dbCart (by decide) (by decide)

/-- C9 witness: the concrete one-line cart with an absent joined product
makes `createOrder` crash with a `TypeError`, leaving the store unchanged. -/
theorem c9_missing_product_crash_witness :
    createOrder "u" cartBad addrEx "o1" false dbEx = (dbEx, .error .typeError) :=
  c9_missing_product_crash "u" cartBad addrEx "o1" false dbEx (by decide)

/-! ### C8: catalog queries — active scoping and filter semantics -/

lemma getProducts_eq_filter (f : FilterOptions) (db : List Product)
    (hc : f.category ≠ some "") (hs : f.search ≠ some "") :
    getProducts f db = db.filter (matchesFilters f) := by
  obtain ⟨c, mn, mx, w⟩ := f
  have hcv : ∀ x, c = some x → ¬ x = "" := fun x hx h0 => hc (by simp [hx, h0])
  have hwv : ∀ x, w = some x → ¬ x = "" := fun x hx h0 => hs (by simp [hx, h0])
  rcases c with _ | cv <;> rcases mn with _ | mnv <;> rcases mx with _ | mxv <;>
    rcases w with _ | wv <;>
    simp only [getProducts] <;>
    (try rw [if_neg (hcv _ rfl)]) <;>
    (try rw [if_neg (hwv _ rfl)]) <;>
    (try simp only [List.filter_filter]) <;>
    (apply List.filter_congr
     intro x hx
     simp [matchesFilters, Bool.and_comm, Bool.and_left_comm, Bool.and_assoc])

lemma getProductById_active (i : String) (db : List Product) (p : Product)
    (hid : getProductById i db = some p) : p.is_active = true := by
  unfold getProductById at hid
  rcases hfe : db.filter (fun x => x.id == i && x.is_active) with _ | ⟨p1, t⟩
  · rw [hfe] at hid
    exact absurd hid (by simp)
  · rcases t with _ | ⟨p2, t2⟩
    · rw [hfe] at hid
      simp only [Option.some.injEq] at hid
      subst hid
      have hp1 : p1 ∈ db.filter (fun x => x.id == i && x.is_active) := by
        rw [hfe]
        exact List.mem_cons_self p1 []
      exact (Bool.and_eq_true _ _ |>.mp (List.mem_filter.mp hp1).2).2
    · rw [hfe] at hid
      exact absurd hid (by simp)

lemma getFeaturedProducts_active (n : Nat) (db : List Product) (q : Product)
    (hfq : q ∈ getFeaturedProducts n db) : q.is_active = true := by
  unfold getFeaturedProducts at hfq
  exact (List.mem_filter.mp (List.take_subset _ _ hfq)).2

/-- C8: every shopper-facing catalog query scopes to `is_active = true`, and
`getProducts` filters exactly by: active, category equality when a category
is given, `minPrice ≤ price` and `price ≤ maxPrice` when bounds are given,
and a case-insensitive substring match on name or description when a search
term is given (non-degenerate filter strings: JS truthiness skips an empty
category or search string). -/
theorem c8_catalog_active_filtering (f : FilterOptions) (db : List Product)
    (i : String) (p q : Product) (n : Nat)
    (hc : f.category ≠ some "") (hs : f.search ≠ some "")
    (hid : getProductById i db = some p)
    (hfq : q ∈ getFeaturedProducts n db) :
    getProducts f db = db.filter (matchesFilters f)
    ∧ p.is_active = true ∧ q.is_active = true :=
  ⟨getProducts_eq_filter f db hc hs,
   getProductById_active i db p hid,
   getFeaturedProducts_active n db q hfq⟩

/-- A concrete non-degenerate filter request. -/
def fEx : FilterOptions :=
  { category := some "cat1", minPrice := some 10, maxPrice := some 30000,
    search := some "head" }

/-- C8 witness: the concrete query equals the pointwise filter on the
concrete catalog, and the products returned by the concrete by-id and
featured queries are active. -/
theorem c8_catalog_active_filtering_witness :
    getProducts fEx [pA, pB, pC] = [pA, pB, pC].filter (matchesFilters fEx)
    ∧ pA.is_active = true ∧ pB.is_active = true :=
  c8_catalog_active_filtering fEx [pA, pB, pC] "p1" pA pB 2
    (by decide) (by decide) (by decide) (by decide)
